import Mathlib

/-!
Shallow embedding of `src/intra_deploy/main.py` (the intra-deploy webhook
watcher) and verification of its specification claims.

Python values flowing through the program are JSON-decoded, dynamically
typed data; they are embedded as the inductive type `Value`.  Side effects
that the claims observe (invoking the deploy action, invoking the verifier,
log lines) are embedded as an explicit trace of `Event`s.  Exceptions are
embedded with `Except` / explicit raised-flags.  The HTTP round trip is an
oracle parameter `http : String → List (String × String) → HttpOutcome`
mapping the request URL and headers to the observed outcome.
-/

namespace IntraDeploy

/-- A JSON-like dynamically typed value, embedding the Python values that
flow through the poller (results of `response.json()`, dict payloads,
strings, …).  `obj` is a Python dict with string keys (first binding wins,
as keys are unique in a decoded dict). -/
inductive Value where
  | null : Value
  | bool (b : Bool) : Value
  | num (n : Int) : Value
  | str (s : String) : Value
  | list (xs : List Value) : Value
  | obj (fields : List (String × Value)) : Value

/-- `d.get(k)` on a Python dict: the first binding for `k`, if any. -/
def lookup (fields : List (String × Value)) (k : String) : Option Value :=
  match fields with
  | [] => none
  | (k2, v) :: rest => if k2 = k then some v else lookup rest k

/-- `d.get(k, default)` on a Python dict. -/
def lookupD (fields : List (String × Value)) (k : String) (d : Value) : Value :=
  (lookup fields k).getD d

/-- Python truthiness of an embedded value (`if x:`). -/
def truthy : Value → Bool
  | .null => false
  | .bool b => b
  | .num n => n != 0
  | .str s => s != ""
  | .list xs => !xs.isEmpty
  | .obj fields => !fields.isEmpty

/-- Observable events of the program: collaborator invocations and the log
lines the claims talk about.  Log events carry the dynamic values that the
corresponding f-strings interpolate. -/
inductive Event where
  /-- `deploy()` was invoked (line 42). -/
  | deployCall : Event
  /-- the svix verifier `wh.verify` was invoked (line 54). -/
  | verifyCall : Event
  /-- `logging.info("Push to master/main branch detected, ...")` (line 41). -/
  | deployLog : Event
  /-- `logging.info(f"Ignoring push to {payload.get('ref')}")` (line 44). -/
  | ignoreLog (ref : Option Value) : Event
  /-- `logger.info(f"Processing message: {msg.get('id')}")` (line 114). -/
  | procStart (id : Option Value) : Event
  /-- `logger.error(f"Error processing message {msg.get('id')}: ...")` (line 117). -/
  | procError (id : Option Value) : Event
  /-- `logging.error(f"Webhook verification failed: ...")` (line 56). -/
  | verifyFailLog : Event
  /-- `logger.error("SVIX_ENDPOINT_URL and SVIX_API_KEY must be set ...")` (line 168). -/
  | configErrorLog : Event
  /-- `logger.info(f"Starting Svix poller for endpoint: ...")` (line 171). -/
  | startLog : Event
  /-- `logger.info("Shutting down...")` (line 180). -/
  | shutdownLog : Event
  /-- `logger.error(f"Fatal error: ...")` (line 182). -/
  | fatalLog : Event

/-- Python `x == "lit"` for a possibly-absent dynamic value `x` compared to a
string literal: true exactly when `x` is that string.  (`None == "lit"` and
`<non-str> == "lit"` are `False` in Python, they do not raise.) -/
def pyEqStr (v : Option Value) (s : String) : Bool :=
  match v with
  | some (.str t) => t == s
  | _ => false

/-- `pyEqStr` decides equality with an embedded string value. -/
theorem pyEqStr_iff (v : Option Value) (s : String) :
    pyEqStr v s = true ↔ v = some (.str s) := by
  cases v with
  | none => simp [pyEqStr]
  | some w => cases w <;> simp [pyEqStr]

/-- `process_webhook_payload` (lines 34-44): given the decoded payload dict,
trigger `deploy()` exactly when `payload.get("ref")` equals
`"refs/heads/master"` or `"refs/heads/main"`; otherwise log and ignore.
Returns the trace of events.  Total: the Python function cannot raise on a
dict payload (`dict.get` of a missing key returns `None`, and `None == str`
is `False`). -/
def process_webhook_payload (payload : List (String × Value)) : List Event :=
  if pyEqStr (lookup payload "ref") "refs/heads/master"
      || pyEqStr (lookup payload "ref") "refs/heads/main" then
    [.deployLog, .deployCall]
  else
    [.ignoreLog (lookup payload "ref")]

mutual

/-- Python `repr` of an embedded value, as interpolated by f-strings for
non-string values (`str(None) = "None"`, `str(True) = "True"`, and the
usual bracketed reprs for lists and dicts). -/
def pyRepr : Value → String
  | .null => "None"
  | .bool true => "True"
  | .bool false => "False"
  | .num n => toString n
  | .str s => "\x27" ++ s ++ "\x27"
  | .list xs => "[" ++ pyReprElems xs ++ "]"
  | .obj fs => "\x7b" ++ pyReprFields fs ++ "\x7d"

/-- Comma-separated reprs of a Python list's elements. -/
def pyReprElems : List Value → String
  | [] => ""
  | [v] => pyRepr v
  | v :: rest => pyRepr v ++ ", " ++ pyReprElems rest

/-- Comma-separated `key: value` reprs of a Python dict's items. -/
def pyReprFields : List (String × Value) → String
  | [] => ""
  | [(k, v)] => "\x27" ++ k ++ "\x27: " ++ pyRepr v
  | (k, v) :: rest => "\x27" ++ k ++ "\x27: " ++ pyRepr v ++ ", " ++ pyReprFields rest

end

/-- Python `str(v)` / f-string interpolation of an embedded value. -/
def pyStr : Value → String
  | .str s => s
  | v => pyRepr v

/-- The observed outcome of one `session.get` round trip plus body read:
either an exception somewhere in the request (transport error, timeout, or
a body that fails to parse as JSON — `.resp` with an `.error` body), or a
response with an HTTP status and a parsed JSON body. -/
inductive HttpOutcome where
  | exn : HttpOutcome
  | resp (status : Nat) (body : Except Unit Value) : HttpOutcome

/-- URL construction in `poll_messages` (lines 84-86): append
`?iterator=...` exactly when the iterator argument is truthy (Python
`if iterator:`), so `None` and the empty string both yield the bare URL. -/
def buildURL (endpoint : String) (iterator : Option Value) : String :=
  match iterator with
  | some v => if truthy v then endpoint ++ "?iterator=" ++ pyStr v else endpoint
  | none => endpoint

/-- Request headers built in `poll_messages` (lines 78-82). -/
def buildHeaders (apiKey : String) : List (String × String) :=
  [("Authorization", "Bearer " ++ apiKey),
   ("Content-Type", "application/json"),
   ("Accept", "application/json")]

/-- `poll_messages` (lines 59-99).  The network is the oracle `http`,
mapping the request URL and headers to the observed `HttpOutcome`.  The
whole body sits in a `try/except Exception` that returns `([], "", True)`,
so the embedding is total: request exceptions, non-200 statuses, JSON
parse failures, and the `AttributeError` from `.get` on a non-dict body
all produce the empty result.  On a 200 response with a dict body the
result is `(body.get("data", []), body.get("iterator", ""),
body.get("done", True))`, returned as raw dynamic values. -/
def poll_messages (http : String → List (String × String) → HttpOutcome)
    (endpoint apiKey : String) (iterator : Option Value) :
    Value × Value × Value :=
  match http (buildURL endpoint iterator) (buildHeaders apiKey) with
  | .exn => (.list [], .str "", .bool true)
  | .resp status body =>
    if status ≠ 200 then (.list [], .str "", .bool true)
    else
      match body with
      | .error _ => (.list [], .str "", .bool true)
      | .ok (.obj fields) =>
          (lookupD fields "data" (.list []),
           lookupD fields "iterator" (.str ""),
           lookupD fields "done" (.bool true))
      | .ok _ => (.list [], .str "", .bool true)

/-- The body of the `for msg in messages` loop in `process_messages`
(lines 111-117), for one message.  `.ok trace`: the iteration completes
(either no exception, or the exception was caught and logged by the
`except` block) and emits `trace`.  `.error trace`: an exception escapes
the iteration and aborts the whole batch after emitting `trace`.

For a dict `msg`, `msg.get("payload", {})` and the `procStart` log always
succeed; a non-dict payload then makes `payload.get("ref")` raise
`AttributeError`, which the handler catches and logs with `msg.get("id")`.
For a non-dict `msg`, `msg.get("payload", {})` raises in the `try` and the
handler's own f-string re-raises on `msg.get("id")`, so the exception
escapes with nothing logged. -/
def processMessage (msg : Value) : Except (List Event) (List Event) :=
  match msg with
  | .obj fields =>
    match lookupD fields "payload" (.obj []) with
    | .obj pf => .ok (.procStart (lookup fields "id") :: process_webhook_payload pf)
    | _ => .ok [.procStart (lookup fields "id"), .procError (lookup fields "id")]
  | _ => .error []

/-- `process_messages` (lines 101-117): fold `processMessage` over the
batch in order.  Returns the emitted trace and a raised-flag: `true` means
an exception escaped `process_messages` (aborting the remaining messages),
`false` means it returned normally. -/
def process_messages : List Value → List Event × Bool
  | [] => ([], false)
  | msg :: rest =>
    match processMessage msg with
    | .error ev => (ev, true)
    | .ok ev =>
      let r := process_messages rest
      (ev ++ r.1, r.2)

/-- The `if messages: await process_messages(messages, logger)` step of the
poll loop (lines 141-142), on the raw `data` value returned by
`poll_messages`.  A falsy value (including `[]`) skips processing.  A
truthy non-list raises with nothing logged: iterating an int/bool raises
`TypeError` at the `for` statement, and iterating a string or dict yields
strings, whose first `processMessage` iteration escapes with an empty
trace. -/
def dispatchMessages (messages : Value) : List Event × Bool :=
  if truthy messages then
    match messages with
    | .list xs => process_messages xs
    | _ => ([], true)
  else ([], false)

/-- The cursor update of the poll loop (lines 144-148):
`iterator = next_iterator` when `not done and next_iterator` holds under
Python truthiness, else `iterator = None`. -/
def advanceCursor (done nextIterator : Value) : Option Value :=
  if !(truthy done) && truthy nextIterator then some nextIterator else none

/-- One iteration of the `while True` loop in `run_poller` (lines 136-150):
fetch with the current cursor, dispatch the messages, then advance the
cursor with `advanceCursor`.  `.error trace` embeds an exception escaping
the iteration (which crashes the loop, so no next fetch);
`.ok (cursor, trace)` gives the cursor the next iteration's fetch will
use.  The sleep carries no data and is not modelled. -/
def pollCycle (http : String → List (String × String) → HttpOutcome)
    (endpoint apiKey : String) (cursor : Option Value) :
    Except (List Event) (Option Value × List Event) :=
  let r := poll_messages http endpoint apiKey cursor
  let d := dispatchMessages r.1
  if d.2 then .error d.1
  else .ok (advanceCursor r.2.2 r.2.1, d.1)

/-- The svix-style webhook headers consumed by the verifier. -/
structure SvixHeaders where
  svixId : Option String
  svixTimestamp : Option String
  svixSignature : Option String

/-- `WebhookVerificationError` raised by the verifier, by cause. -/
inductive VerificationError where
  | absentSignature : VerificationError
  | malformedSignature : VerificationError
  | signatureMismatch : VerificationError

/-- Modelled from the spec: the svix library's `Webhook(secret).verify`
(imported at line 13, used at lines 52-54; the library is a dependency,
not part of this repository's sources).  Per spec section 4.3 it verifies
an HMAC-style signature over the payload and timestamp headers with the
shared secret, failing with a verification error when the signature is
absent, malformed, or does not match the recomputed signature, and
returning the parsed structured payload on success.  The HMAC primitive
and the JSON parser are abstract parameters `hmac` (secret and signed
content to signature) and `parse`. -/
def svixVerify (hmac : String → String → String) (parse : String → Value)
    (secret : String) (payload : String) (headers : SvixHeaders) :
    Except VerificationError Value :=
  match headers.svixId, headers.svixTimestamp, headers.svixSignature with
  | some i, some ts, some sig =>
    if sig.startsWith "v1," then
      if sig.drop 3 = hmac secret (i ++ "." ++ ts ++ "." ++ payload) then
        .ok (parse payload)
      else .error .signatureMismatch
    else .error .malformedSignature
  | _, _, _ => .error .absentSignature

/-- `verify_webhook` (lines 46-57): invokes the svix verifier on the raw
payload and headers; on `WebhookVerificationError` it logs the failure and
re-raises, on success it returns the decoded payload unchanged.  Returns
the verification result together with the emitted trace (`verifyCall`
marks the `wh.verify` invocation). -/
def verify_webhook (hmac : String → String → String) (parse : String → Value)
    (payload : String) (headers : SvixHeaders) (webhookSecret : String) :
    Except VerificationError Value × List Event :=
  match svixVerify hmac parse webhookSecret payload headers with
  | .ok v => (.ok v, [.verifyCall])
  | .error e => (.error e, [.verifyCall, .verifyFailLog])

/-- How the `asyncio.run(run_poller(...))` call in `main` terminates:
an exception escaping the loop, a `KeyboardInterrupt`, or a `SystemExit`
(raised by `handle_shutdown`'s `sys.exit(0)`). -/
inductive LoopOutcome where
  | exn : LoopOutcome
  | kbInterrupt : LoopOutcome
  | sysExit (code : Nat) : LoopOutcome

/-- `handle_shutdown` (lines 152-156): on SIGINT/SIGTERM, log and raise
`SystemExit(0)` via `sys.exit(0)`. -/
def handle_shutdown (_signum : Nat) : LoopOutcome :=
  .sysExit 0

/-- Python truthiness of an optional environment string (`os.getenv`
returns `None` when unset; `not s` is also true for the empty string). -/
def truthyEnv : Option String → Bool
  | none => false
  | some s => s != ""

/-- The observable outcome of one `main` run. -/
structure MainResult where
  exitCode : Nat
  enteredLoop : Bool
  events : List Event

/-- `main` (lines 158-183) given the two environment variables and the way
the poll loop terminates.  Missing (or empty) configuration logs and
`return`s — process exit code 0, loop never entered.  `KeyboardInterrupt`
is caught and logged (exit 0); any other `Exception` is caught, logged and
converted to `sys.exit(1)`; a `SystemExit` (from `handle_shutdown`) is not
caught by `except Exception` and exits with its own code. -/
def mainRun (endpointURL apiKey : Option String) (loop : LoopOutcome) :
    MainResult :=
  if !(truthyEnv endpointURL) || !(truthyEnv apiKey) then
    ⟨0, false, [.configErrorLog]⟩
  else
    match loop with
    | .exn => ⟨1, true, [.startLog, .fatalLog]⟩
    | .kbInterrupt => ⟨0, true, [.startLog, .shutdownLog]⟩
    | .sysExit c => ⟨c, true, [.startLog]⟩

/-! ## Claim theorems -/

/-- C1: for every decoded payload `P` (a string-keyed map),
`process_webhook_payload P` invokes the deploy Action if and only if `P`'s
`"ref"` field equals `"refs/heads/master"` or `"refs/heads/main"`; for any
other value of `"ref"`, or when `"ref"` is absent, the Action is not
invoked (and the embedding is a total function, so the call returns
normally without raising). -/
theorem c1_deploy_iff_master_or_main (payload : List (String × Value)) :
    Event.deployCall ∈ process_webhook_payload payload ↔
      (lookup payload "ref" = some (.str "refs/heads/master") ∨
       lookup payload "ref" = some (.str "refs/heads/main")) := by
  rw [← pyEqStr_iff (lookup payload "ref") "refs/heads/master",
    ← pyEqStr_iff (lookup payload "ref") "refs/heads/main", ← Bool.or_eq_true]
  unfold process_webhook_payload
  split <;> simp_all

/-- C10: an empty-string iterator is indistinguishable from an absent one
at the fetch interface: `poll_messages` gives identical results for the
two (for every oracle, endpoint and key), and in both cases the request
URL carries no iterator query parameter. -/
theorem c10_empty_iterator_is_absent
    (http : String → List (String × String) → HttpOutcome)
    (endpoint apiKey : String) :
    poll_messages http endpoint apiKey (some (.str "")) =
      poll_messages http endpoint apiKey none ∧
    buildURL endpoint (some (.str "")) = endpoint ∧
    buildURL endpoint none = endpoint :=
  ⟨rfl, rfl, rfl⟩

/-- C5: for every fetch whose HTTP response is a 200 with a parsed JSON
object body, `poll_messages` returns the body's `"data"`, `"iterator"` and
`"done"` fields, defaulting to `[]`, `""` and `True` respectively when a
field is absent. -/
theorem c5_success_returns_fields
    (http : String → List (String × String) → HttpOutcome)
    (endpoint apiKey : String) (iterator : Option Value)
    (fields : List (String × Value))
    (h : http (buildURL endpoint iterator) (buildHeaders apiKey) =
      .resp 200 (.ok (.obj fields))) :
    poll_messages http endpoint apiKey iterator =
      (lookupD fields "data" (.list []),
       lookupD fields "iterator" (.str ""),
       lookupD fields "done" (.bool true)) := by
  unfold poll_messages
  rw [h]
  simp

/-- A concrete successful response body for instantiating `c5`. -/
def sampleFields : List (String × Value) :=
  [("data", .list [.obj [("id", .str "m1")]]), ("iterator", .str "c1"),
   ("done", .bool false)]

/-- A concrete HTTP oracle that always answers 200 with `sampleFields`. -/
def sampleHttp : String → List (String × String) → HttpOutcome :=
  fun _ _ => .resp 200 (.ok (.obj sampleFields))

/-- C5 witness: `c5_success_returns_fields` at a concrete oracle. -/
theorem c5_success_returns_fields_witness :
    poll_messages sampleHttp "https://api.example" "key" none =
      (lookupD sampleFields "data" (.list []),
       lookupD sampleFields "iterator" (.str ""),
       lookupD sampleFields "done" (.bool true)) :=
  c5_success_returns_fields sampleHttp "https://api.example" "key" none
    sampleFields rfl

/-- C3: for every fetch whose outcome is an exception (transport error or
body-parse failure) or a non-200 status, `poll_messages` returns the empty
message list, the empty cursor and `done = True`; being a total function
of the observed outcome, it propagates no exception to its caller. -/
theorem c3_failure_returns_empty_done
    (http : String → List (String × String) → HttpOutcome)
    (endpoint apiKey : String) (iterator : Option Value)
    (h : http (buildURL endpoint iterator) (buildHeaders apiKey) = .exn ∨
      (∃ st b, http (buildURL endpoint iterator) (buildHeaders apiKey) =
        .resp st b ∧ st ≠ 200) ∨
      (∃ st, http (buildURL endpoint iterator) (buildHeaders apiKey) =
        .resp st (.error ()))) :
    poll_messages http endpoint apiKey iterator =
      (.list [], .str "", .bool true) := by
  unfold poll_messages
  rcases h with h | ⟨st, b, h, hst⟩ | ⟨st, h⟩
  · rw [h]
  · rw [h]
    simp [hst]
  · rw [h]
    by_cases hst : st = 200
    · subst hst
      rfl
    · simp [hst]

/-- A concrete HTTP oracle that always fails with a transport error. -/
def failingHttp : String → List (String × String) → HttpOutcome :=
  fun _ _ => .exn

/-- C3 witness: `c3_failure_returns_empty_done` at a concrete oracle. -/
theorem c3_failure_returns_empty_done_witness :
    poll_messages failingHttp "https://api.example" "key" none =
      (.list [], .str "", .bool true) :=
  c3_failure_returns_empty_done failingHttp "https://api.example" "key" none
    (Or.inl rfl)

/-- C2: in every completed poll-loop iteration, after the fetch returns
`(messages, next_iterator, done)`: if `done` is `False` and
`next_iterator` is a non-empty string, the cursor used by the next fetch
is exactly `next_iterator`; if `done` is `True` or `next_iterator` is the
empty string, the cursor used by the next fetch is none. -/
theorem c2_cursor_advance
    (http : String → List (String × String) → HttpOutcome)
    (endpoint apiKey : String) (cursor : Option Value)
    (messages nextIterator done : Value) (c : Option Value) (ev : List Event)
    (hp : poll_messages http endpoint apiKey cursor =
      (messages, nextIterator, done))
    (hc : pollCycle http endpoint apiKey cursor = .ok (c, ev)) :
    ((∃ s, done = .bool false ∧ nextIterator = .str s ∧ s ≠ "") →
      c = some nextIterator) ∧
    ((done = .bool true ∨ nextIterator = .str "") → c = none) := by
  unfold pollCycle at hc
  rw [hp] at hc
  have hadv : c = advanceCursor done nextIterator := by
    dsimp only at hc
    split at hc
    · cases hc
    · cases hc
      rfl
  constructor
  · rintro ⟨s, rfl, rfl, hs⟩
    rw [hadv]
    simp [advanceCursor, truthy, hs]
  · rintro (rfl | rfl) <;> rw [hadv] <;> simp [advanceCursor, truthy]

/-- C2 witness: `c2_cursor_advance` on a concrete cycle using `sampleHttp`
(`done = False`, `iterator = "c1"`). -/
theorem c2_cursor_advance_witness :
    ((∃ s, Value.bool false = Value.bool false ∧
        Value.str "c1" = Value.str s ∧ s ≠ "") →
      some (Value.str "c1") = some (Value.str "c1")) ∧
    ((Value.bool false = Value.bool true ∨ Value.str "c1" = Value.str "") →
      some (Value.str "c1") = none) :=
  c2_cursor_advance sampleHttp "https://api.example" "key" none
    (.list [.obj [("id", .str "m1")]]) (.str "c1") (.bool false)
    (some (.str "c1"))
    [.procStart (some (.str "m1")), .ignoreLog none]
    rfl rfl

/-- The trace one message contributes to `process_messages`, whether or
not its iteration ends in an uncaught exception. -/
def msgTrace (msg : Value) : List Event :=
  match processMessage msg with
  | .ok ev => ev
  | .error ev => ev

/-- A dict envelope never lets an exception escape its loop iteration:
the handler's `msg.get("id")` succeeds, so every failure is caught. -/
theorem processMessage_obj_ok (f : List (String × Value)) :
    processMessage (Value.obj f) = .ok (msgTrace (Value.obj f)) := by
  unfold msgTrace processMessage
  dsimp only
  cases hpay : lookupD f "payload" (Value.obj []) <;> rfl

/-- Processing a batch that starts with dict envelopes processes each of
them independently, in order, and continues into the rest of the batch. -/
theorem process_messages_obj_append (xs ys : List Value)
    (hx : ∀ m ∈ xs, ∃ f, m = Value.obj f) :
    process_messages (xs ++ ys) =
      ((xs.map msgTrace).flatten ++ (process_messages ys).1,
       (process_messages ys).2) := by
  induction xs with
  | nil => simp
  | cons m rest ih =>
    obtain ⟨f, rfl⟩ := hx m (List.mem_cons_self m rest)
    have hrest := ih fun m hm => hx m (List.mem_cons_of_mem _ hm)
    simp [process_messages, processMessage_obj_ok, hrest]

/-- A batch of dict envelopes is fully processed and returns normally. -/
theorem process_messages_obj (xs : List Value)
    (hx : ∀ m ∈ xs, ∃ f, m = Value.obj f) :
    process_messages xs = ((xs.map msgTrace).flatten, false) := by
  simpa [process_messages] using process_messages_obj_append xs [] hx

/-- C4 counterexample: a batch with one malformed (non-dict) envelope and
one well-formed envelope.  Contrary to the claim, the exception raised
while extracting the malformed envelope is re-raised by the handler's own
`msg.get("id")` f-string, so nothing is logged, the well-formed sibling is
never processed, and `process_messages` does not return normally (the
raised flag is `true` and the emitted trace is empty). -/
theorem c4_counterexample_non_dict_envelope :
    process_messages
      [Value.str "boom",
       Value.obj [("id", Value.str "m1"),
         ("payload", Value.obj [("ref", Value.str "refs/heads/main")])]] =
      ([], true) := rfl

/-- C4 (amended): for every batch whose envelopes are all dicts (as the
annotation `messages: list[dict[str, Any]]` declares), processing is
isolated per envelope: a malformed envelope (one whose payload is not a
dict, so that evaluating it raises) has its exception caught and logged
with the envelope's id, every other envelope in the batch is still
processed in order, and `process_messages` returns normally; each
well-formed envelope's payload is evaluated by `process_webhook_payload`. -/
theorem c4_isolation_for_dict_envelopes (a b : List Value)
    (badFields : List (String × Value))
    (ha : ∀ m ∈ a, ∃ f, m = Value.obj f)
    (hb : ∀ m ∈ b, ∃ f, m = Value.obj f)
    (hbad : ∀ pf, lookupD badFields "payload" (Value.obj []) ≠ Value.obj pf) :
    process_messages (a ++ Value.obj badFields :: b) =
      ((a.map msgTrace).flatten ++
        ([Event.procStart (lookup badFields "id"),
          Event.procError (lookup badFields "id")] ++ (b.map msgTrace).flatten),
       false) ∧
    (∀ f pf, lookupD f "payload" (Value.obj []) = Value.obj pf →
      msgTrace (Value.obj f) =
        Event.procStart (lookup f "id") :: process_webhook_payload pf) := by
  constructor
  · have hbadMsg : processMessage (Value.obj badFields) =
        .ok [Event.procStart (lookup badFields "id"),
             Event.procError (lookup badFields "id")] := by
      unfold processMessage
      dsimp only
      cases hpay : lookupD badFields "payload" (Value.obj []) <;>
        first
          | rfl
          | exact absurd hpay (hbad _)
    rw [process_messages_obj_append a _ ha]
    simp [process_messages, hbadMsg, process_messages_obj b hb]
  · intro f pf h
    unfold msgTrace processMessage
    dsimp only
    rw [h]

/-- A well-formed envelope whose payload pushes to main. -/
def wfMain : Value :=
  .obj [("id", .str "m0"), ("payload", .obj [("ref", .str "refs/heads/main")])]

/-- A well-formed envelope whose payload pushes to a feature branch. -/
def wfDev : Value :=
  .obj [("id", .str "m2"), ("payload", .obj [("ref", .str "refs/heads/dev")])]

/-- A malformed envelope: a dict whose payload is not a dict. -/
def badEnvelopeFields : List (String × Value) :=
  [("id", .str "mx"), ("payload", .str "oops")]

/-- C4 witness: `c4_isolation_for_dict_envelopes` on a concrete batch with
one malformed envelope between two well-formed ones. -/
theorem c4_isolation_for_dict_envelopes_witness :
    process_messages ([wfMain] ++ Value.obj badEnvelopeFields :: [wfDev]) =
      (([wfMain].map msgTrace).flatten ++
        ([Event.procStart (lookup badEnvelopeFields "id"),
          Event.procError (lookup badEnvelopeFields "id")] ++
          ([wfDev].map msgTrace).flatten),
       false) ∧
    (∀ f pf, lookupD f "payload" (Value.obj []) = Value.obj pf →
      msgTrace (Value.obj f) =
        Event.procStart (lookup f "id") :: process_webhook_payload pf) :=
  c4_isolation_for_dict_envelopes [wfMain] [wfDev] badEnvelopeFields
    (by
      intro m hm
      rw [List.mem_singleton] at hm
      subst hm
      exact ⟨_, rfl⟩)
    (by
      intro m hm
      rw [List.mem_singleton] at hm
      subst hm
      exact ⟨_, rfl⟩)
    (fun pf h => Value.noConfusion h)

/-- The condition evaluator's trace never contains a verifier invocation. -/
theorem verifyCall_not_in_webhook_payload (p : List (String × Value)) :
    Event.verifyCall ∉ process_webhook_payload p := by
  unfold process_webhook_payload
  split <;> simp

/-- No trace emitted by one message's loop iteration invokes the verifier. -/
theorem processMessage_no_verifyCall (m : Value) (ev : List Event)
    (h : processMessage m = .ok ev ∨ processMessage m = .error ev) :
    Event.verifyCall ∉ ev := by
  cases m with
  | obj f =>
    unfold processMessage at h
    dsimp only at h
    cases hpay : lookupD f "payload" (Value.obj []) <;> rw [hpay] at h <;>
      rcases h with h | h <;> cases h <;>
        simp [verifyCall_not_in_webhook_payload]
  | null => unfold processMessage at h; rcases h with h | h <;> cases h <;> simp
  | bool b => unfold processMessage at h; rcases h with h | h <;> cases h <;> simp
  | num n => unfold processMessage at h; rcases h with h | h <;> cases h <;> simp
  | str s => unfold processMessage at h; rcases h with h | h <;> cases h <;> simp
  | list xs => unfold processMessage at h; rcases h with h | h <;> cases h <;> simp

/-- C8: the polling path acts on decoded payloads without signature
verification — for every batch, the trace of `process_messages` never
contains a verifier invocation — while the direct-inbound entry point
`verify_webhook` always invokes the verifier. -/
theorem c8_polling_path_never_verifies (msgs : List Value)
    (hmac : String → String → String) (parse : String → Value)
    (payload : String) (headers : SvixHeaders) (webhookSecret : String) :
    Event.verifyCall ∉ (process_messages msgs).1 ∧
    Event.verifyCall ∈
      (verify_webhook hmac parse payload headers webhookSecret).2 := by
  constructor
  · induction msgs with
    | nil => simp [process_messages]
    | cons m rest ih =>
      cases hm : processMessage m with
      | error ev =>
        have hne := processMessage_no_verifyCall m ev (Or.inr hm)
        simp [process_messages, hm, hne]
      | ok ev =>
        have hne := processMessage_no_verifyCall m ev (Or.inl hm)
        simp [process_messages, hm, List.mem_append, hne, ih]
  · cases h : svixVerify hmac parse webhookSecret payload headers <;>
      simp [verify_webhook, h]

/-- C7: `verify_webhook` fails (raising the verification error onward,
after logging the failure) exactly when the signature material carried in
the headers is absent, malformed, or does not match the signature
recomputed from the payload, timestamp and secret; whenever it returns
successfully, the returned value is the parsed structured payload — it
never hands an unverified payload to its caller. -/
theorem c7_verify_error_iff_bad_signature
    (hmac : String → String → String) (parse : String → Value)
    (payload webhookSecret : String) (headers : SvixHeaders) :
    ((∃ e, (verify_webhook hmac parse payload headers webhookSecret).1 =
        Except.error e) ↔
      (headers.svixId = none ∨ headers.svixTimestamp = none ∨
        headers.svixSignature = none ∨
        (∃ i ts sig, headers.svixId = some i ∧
          headers.svixTimestamp = some ts ∧
          headers.svixSignature = some sig ∧
          (sig.startsWith "v1," = false ∨
            sig.drop 3 ≠
              hmac webhookSecret (i ++ "." ++ ts ++ "." ++ payload))))) ∧
    ((∃ e, (verify_webhook hmac parse payload headers webhookSecret).1 =
        Except.error e) →
      Event.verifyFailLog ∈
        (verify_webhook hmac parse payload headers webhookSecret).2) ∧
    (∀ v, (verify_webhook hmac parse payload headers webhookSecret).1 =
        Except.ok v → v = parse payload) := by
  obtain ⟨hid, hts, hsig⟩ := headers
  cases hid with
  | none => refine ⟨?_, ?_, ?_⟩ <;> simp [verify_webhook, svixVerify]
  | some i =>
    cases hts with
    | none => refine ⟨?_, ?_, ?_⟩ <;> simp [verify_webhook, svixVerify]
    | some ts =>
      cases hsig with
      | none => refine ⟨?_, ?_, ?_⟩ <;> simp [verify_webhook, svixVerify]
      | some sig =>
        by_cases hv : sig.startsWith "v1,"
        · by_cases he :
            sig.drop 3 = hmac webhookSecret (i ++ "." ++ ts ++ "." ++ payload)
          · refine ⟨?_, ?_, ?_⟩ <;>
              simp [verify_webhook, svixVerify, hv, he]
          · refine ⟨?_, ?_, ?_⟩ <;>
              simp [verify_webhook, svixVerify, hv, he]
        · refine ⟨?_, ?_, ?_⟩ <;>
            simp [verify_webhook, svixVerify, hv]

/-- C9: when the endpoint URL or the API key is missing from the
environment, `main` logs the missing-configuration error and finishes with
exit status 0 without ever entering the poll loop; when both are present
and an unexpected fault escapes the loop, it is logged and the process
exits with a non-zero status. -/
theorem c9_exit_codes (endpointURL apiKey : Option String)
    (loop : LoopOutcome) :
    ((endpointURL = none ∨ apiKey = none) →
      mainRun endpointURL apiKey loop = ⟨0, false, [.configErrorLog]⟩) ∧
    (truthyEnv endpointURL = true → truthyEnv apiKey = true →
      loop = .exn →
      (mainRun endpointURL apiKey loop).exitCode ≠ 0 ∧
      (mainRun endpointURL apiKey loop).enteredLoop = true ∧
      Event.fatalLog ∈ (mainRun endpointURL apiKey loop).events) := by
  constructor
  · rintro (rfl | rfl) <;> simp [mainRun, truthyEnv]
  · rintro h1 h2 rfl
    simp [mainRun, h1, h2]

end IntraDeploy
